import Mathlib

/-!
# ElderCare backend — shallow embedding and verification

Shallow embedding of `src/main.py` and `src/models.py` of the
elderly-care-backend repository.

Modelling conventions:
* MongoDB document ids (`bson.ObjectId`) are carried as their 24-hex-char
  string form; `str(oid)` is therefore the identity.  Freshly generated ids
  are passed to the handlers as an explicit `freshId` argument.
* The two collections `users` and `service_requests` are lists of documents
  in insertion order; `find_one` returns the first match, `update_one`
  updates the first match, `insert_one` appends.
* `datetime.now().isoformat()` is an explicit `now : String` argument.
* A fallible driver call is modelled by an `Option String` argument per
  call site: `some e` means the call raised an exception whose `str()` is
  `e`; `none` means it completed.  `insert_one` results additionally carry
  the driver's `acknowledged` flag as a `Bool` argument.
* JSON response bodies are modelled by the inductive `JVal`; an
  `HTTPException` is its status code plus detail string; a handler returns
  `Except HTTPException JVal` together with the resulting database state.
* `cost` is a JSON number that the code only stores and echoes (never
  computes with), modelled as `ℚ`.
-/

/-- A JSON value, as produced by the handlers. -/
inductive JVal where
  | str (s : String)
  | num (q : ℚ)
  | obj (fields : List (String × JVal))
  | arr (elems : List JVal)
deriving Repr

/-- `fastapi.HTTPException`: an HTTP status code plus a human-readable
detail string. -/
structure HTTPException where
  statusCode : Nat
  detail : String
deriving Repr, DecidableEq

/-- The outcome of a handler: a JSON body or a raised `HTTPException`. -/
abbrev Resp := Except HTTPException JVal

/-- Pydantic model `UserSignup` (models.py): five required strings. -/
structure UserSignup where
  name : String
  email : String
  password : String
  dob : String
  role : String
deriving Repr, DecidableEq

/-- Pydantic model `UserLogin` (models.py). -/
structure UserLogin where
  email : String
  password : String
deriving Repr, DecidableEq

/-- Pydantic model `ServiceRequest` (models.py).  The `status` field has
default `"pending"`; the defaulting performed by pydantic at the HTTP
boundary is modelled by `ServiceRequest.ofPayload` below. -/
structure ServiceRequest where
  userId : String
  userName : String
  userEmail : String
  serviceType : String
  requirements : String
  cost : ℚ
  status : String
  createdAt : String
deriving Repr, DecidableEq

/-- Pydantic boundary parsing of a service-request payload: a payload that
omits `status` gets the declared default `"pending"`. -/
def ServiceRequest.ofPayload (userId userName userEmail serviceType
    requirements : String) (cost : ℚ) (statusField : Option String)
    (createdAt : String) : ServiceRequest :=
  { userId := userId
    userName := userName
    userEmail := userEmail
    serviceType := serviceType
    requirements := requirements
    cost := cost
    status := statusField.getD "pending"
    createdAt := createdAt }

/-- Pydantic model `RequestAction` (models.py). -/
structure RequestAction where
  caregiverId : String
  caregiverName : String
  caregiverEmail : String
deriving Repr, DecidableEq

/-- A document of the `users` collection, as inserted by `signup`. -/
structure UserDoc where
  _id : String
  name : String
  email : String
  password : String
  dob : String
  role : String
deriving Repr, DecidableEq

/-- A document of the `service_requests` collection.  The caregiver fields
and `processedAt` are absent (`none`) until the approve/reject handler
sets them. -/
structure ReqDoc where
  _id : String
  userId : String
  userName : String
  userEmail : String
  serviceType : String
  requirements : String
  cost : ℚ
  status : String
  createdAt : String
  updatedAt : String
  caregiverId : Option String
  caregiverName : Option String
  caregiverEmail : Option String
  processedAt : Option String
deriving Repr, DecidableEq

/-- The database: the two collections, each in insertion order. -/
structure DB where
  users : List UserDoc
  service_requests : List ReqDoc
deriving Repr, DecidableEq

/-- `POST /signup` (main.py, `signup`).
`findErr`/`insertErr` model the two driver calls raising; `ack` is the
insert acknowledgement; `freshId` the id the store assigns. -/
def signup (user : UserSignup) (db : DB) (freshId : String) (ack : Bool)
    (findErr insertErr : Option String) : Resp × DB :=
  match findErr with
  | some _ => (.error ⟨500, "Signup failed due to server error"⟩, db)
  | none =>
    match db.users.find? (fun u => u.email == user.email) with
    | some _ =>
      (.error ⟨409, "Email already registered. Please use a different email or login to your existing account."⟩, db)
    | none =>
      match insertErr with
      | some _ => (.error ⟨500, "Signup failed due to server error"⟩, db)
      | none =>
        let userDoc : UserDoc :=
          { _id := freshId
            name := user.name
            email := user.email
            password := user.password
            dob := user.dob
            role := user.role }
        let db' : DB := { db with users := db.users ++ [userDoc] }
        if ack then
          (.ok (JVal.obj [("message", .str "Account created successfully!")]), db')
        else
          (.error ⟨500, "Signup failed"⟩, db')

/-- `POST /login` (main.py, `login`).  Read-only: the returned state is the
input state on every path. -/
def login (user : UserLogin) (db : DB) (findErr : Option String) :
    Resp × DB :=
  match findErr with
  | some _ => (.error ⟨500, "Login failed due to server error"⟩, db)
  | none =>
    match db.users.find? (fun u => u.email == user.email) with
    | none =>
      (.error ⟨404, "User not found. Please check your email or sign up."⟩, db)
    | some u =>
      if u.password != user.password then
        (.error ⟨401, "Incorrect password. Please try again."⟩, db)
      else
        (.ok (JVal.obj
          [("message", .str "Login successful!"),
           ("user", JVal.obj
             [("id", .str u._id), ("name", .str u.name),
              ("email", .str u.email), ("role", .str u.role),
              ("dob", .str u.dob)])]), db)

/-- `POST /service-request` (main.py, `create_service_request`).
`now` models `datetime.now().isoformat()`.  Note the handler's only
`except` clause is `except Exception`, which also catches the
`HTTPException(500, "Failed to create service request")` raised on an
unacknowledged insert and re-raises it with its `str()` interpolated. -/
def create_service_request (request : ServiceRequest) (db : DB)
    (now freshId : String) (ack : Bool) (insertErr : Option String) :
    Resp × DB :=
  match insertErr with
  | some e =>
    (.error ⟨500, "Failed to create service request: " ++ e⟩, db)
  | none =>
    let doc : ReqDoc :=
      { _id := freshId
        userId := request.userId
        userName := request.userName
        userEmail := request.userEmail
        serviceType := request.serviceType
        requirements := request.requirements
        cost := request.cost
        status := request.status
        createdAt := request.createdAt
        updatedAt := now
        caregiverId := none
        caregiverName := none
        caregiverEmail := none
        processedAt := none }
    let db' : DB := { db with service_requests := db.service_requests ++ [doc] }
    if ack then
      (.ok (JVal.obj
        [("message", .str "Service request created successfully!"),
         ("requestId", .str freshId)]), db')
    else
      (.error ⟨500, "Failed to create service request: 500: Failed to create service request"⟩, db')

/-- One optional document field: present in the serialized document iff
set. -/
def optField (k : String) : Option String → List (String × JVal)
  | none => []
  | some s => [(k, .str s)]

/-- Serialization of a `service_requests` document performed by
`get_pending_requests`: the mongo document (its `_id` first), then
`request["id"] = str(request["_id"])` appends the `id` key and
`del request["_id"]` removes the `_id` key. -/
def reqToJson (r : ReqDoc) : JVal :=
  .obj ([("userId", .str r.userId), ("userName", .str r.userName),
         ("userEmail", .str r.userEmail),
         ("serviceType", .str r.serviceType),
         ("requirements", .str r.requirements), ("cost", .num r.cost),
         ("status", .str r.status), ("createdAt", .str r.createdAt),
         ("updatedAt", .str r.updatedAt)]
    ++ optField "caregiverId" r.caregiverId
    ++ optField "caregiverName" r.caregiverName
    ++ optField "caregiverEmail" r.caregiverEmail
    ++ optField "processedAt" r.processedAt
    ++ [("id", .str r._id)])

/-- The cursor of `get_pending_requests`:
`db.service_requests.find({"status": "pending"}).sort("createdAt", -1)` —
the pending documents, sorted by `createdAt` descending. -/
def pendingSorted (db : DB) : List ReqDoc :=
  (db.service_requests.filter (fun r => r.status == "pending")).mergeSort
    (fun a b => decide (b.createdAt ≤ a.createdAt))

/-- `GET /service-requests/pending` (main.py, `get_pending_requests`).
Read-only. -/
def get_pending_requests (db : DB) (findErr : Option String) : Resp × DB :=
  match findErr with
  | some _ => (.error ⟨500, "Failed to fetch service requests"⟩, db)
  | none =>
    (.ok (JVal.obj [("requests", .arr ((pendingSorted db).map reqToJson))]), db)

/-- `bson.ObjectId(s)` accepts a string iff it is 24 hexadecimal
characters. -/
def isValidObjectId (s : String) : Bool :=
  s.length == 24 && s.data.all (fun c =>
    c.isDigit || ('a' ≤ c && c ≤ 'f') || ('A' ≤ c && c ≤ 'F'))

/-- The `$set` document of `handle_request_action`: status, the three
caregiver fields, `processedAt` and `updatedAt`. -/
def applyAction (status : String) (c : RequestAction) (now : String)
    (r : ReqDoc) : ReqDoc :=
  { r with
    status := status
    caregiverId := some c.caregiverId
    caregiverName := some c.caregiverName
    caregiverEmail := some c.caregiverEmail
    processedAt := some now
    updatedAt := now }

/-- `update_one` semantics: apply `f` to the first element satisfying `p`,
leave everything else unchanged. -/
def updateFirst (p : α → Bool) (f : α → α) : List α → List α
  | [] => []
  | x :: xs => if p x then f x :: xs else x :: updateFirst p f xs

/-- `PATCH /service-request/{request_id}/{action}` (main.py,
`handle_request_action`).  `updateErr` models the `update_one` call
raising. -/
def handle_request_action (request_id action : String)
    (caregiver_data : RequestAction) (db : DB) (now : String)
    (updateErr : Option String) : Resp × DB :=
  if !(action == "approve" || action == "reject") then
    (.error ⟨400, "Invalid action. Use 'approve' or 'reject'"⟩, db)
  else if !(isValidObjectId request_id) then
    (.error ⟨400, "Invalid request ID format"⟩, db)
  else
    let status := if action == "approve" then "approved" else "rejected"
    match updateErr with
    | some e =>
      (.error ⟨500, "Failed to process service request: " ++ e⟩, db)
    | none =>
      if db.service_requests.any (fun r => r._id == request_id) then
        (.ok (JVal.obj [("message", .str ("Request " ++ status ++ " successfully!"))]),
         { db with
           service_requests :=
            updateFirst (fun r => r._id == request_id)
              (applyAction status caregiver_data now)
              db.service_requests })
      else
        (.error ⟨404, "Service request not found"⟩, db)

/-- Top-level field lookup in a JSON value. -/
def JVal.topField (v : JVal) (k : String) : Option JVal :=
  match v with
  | .obj fields => fields.lookup k
  | _ => none

/-- Top-level keys of a JSON object. -/
def JVal.topKeys (v : JVal) : List String :=
  match v with
  | .obj fields => fields.map Prod.fst
  | _ => []

/-- The status strings the spec's data model allows. -/
def statusOk (s : String) : Bool :=
  s == "pending" || s == "approved" || s == "rejected"

mutual

/-- Whether a JSON value contains a field named `k` at any nesting
depth. -/
def JVal.hasKey (k : String) : JVal → Bool
  | .str _ => false
  | .num _ => false
  | .obj fields => hasKeyFields k fields
  | .arr elems => hasKeyElems k elems

/-- Whether an object field list contains the key `k` at any depth. -/
def hasKeyFields (k : String) : List (String × JVal) → Bool
  | [] => false
  | (k', v) :: rest => k' == k || JVal.hasKey k v || hasKeyFields k rest

/-- Whether some element of a JSON array contains the key `k`. -/
def hasKeyElems (k : String) : List JVal → Bool
  | [] => false
  | v :: rest => JVal.hasKey k v || hasKeyElems k rest

end

/-- A sample user document, used for concrete instantiations. -/
def exUser : UserDoc :=
  { _id := "507f1f77bcf86cd799439011"
    name := "A"
    email := "a@x.com"
    password := "p"
    dob := "2000-01-01"
    role := "family" }

/-- A sample pending service-request document. -/
def exReq : ReqDoc :=
  { _id := "507f1f77bcf86cd799439022"
    userId := "507f1f77bcf86cd799439011"
    userName := "A"
    userEmail := "a@x.com"
    serviceType := "cleaning"
    requirements := "weekly visit"
    cost := 50
    status := "pending"
    createdAt := "2024-01-01T00:00:00"
    updatedAt := "2024-01-01T00:00:00"
    caregiverId := none
    caregiverName := none
    caregiverEmail := none
    processedAt := none }

/-- A sample database holding one user and one pending request. -/
def exDB : DB :=
  { users := [exUser], service_requests := [exReq] }

/-- A sample caregiver payload. -/
def exCg : RequestAction :=
  { caregiverId := "507f1f77bcf86cd799439033"
    caregiverName := "C"
    caregiverEmail := "c@x.com" }

/-- A second, distinct caregiver payload. -/
def exCg2 : RequestAction :=
  { caregiverId := "507f1f77bcf86cd799439044"
    caregiverName := "D"
    caregiverEmail := "d@x.com" }

/-! ## Claim C1 -/

/-- C1: a signup whose email already matches an existing user document
fails with 409 Conflict ("Email already registered...") and the users
collection — indeed the whole database — is unchanged. -/
theorem signup_conflict (user : UserSignup) (db : DB) (freshId : String)
    (ack : Bool) (insertErr : Option String)
    (h : ∃ u ∈ db.users, u.email = user.email) :
    signup user db freshId ack none insertErr =
      (.error ⟨409, "Email already registered. Please use a different email or login to your existing account."⟩, db) := by
  obtain ⟨u, hu, he⟩ := h
  have hsome : (db.users.find? (fun v => v.email == user.email)).isSome := by
    rw [List.find?_isSome]
    exact ⟨u, hu, by simp [he]⟩
  obtain ⟨v, hv⟩ := Option.isSome_iff_exists.mp hsome
  simp [signup, hv]

/-- Concrete instantiation of `signup_conflict`: duplicate email against
`exDB`. -/
theorem signup_conflict_witness :
    signup { name := "B", email := "a@x.com", password := "q", dob := "1999-01-01", role := "family" }
        exDB "aaaaaaaaaaaaaaaaaaaaaaaa" true none none =
      (.error ⟨409, "Email already registered. Please use a different email or login to your existing account."⟩, exDB) :=
  signup_conflict _ exDB _ _ _ ⟨exUser, by decide, rfl⟩

/-! ## Claim C2 -/

/-- C2: login fails with 404 when no user document matches the email,
fails with 401 when the first matching user's stored password differs
from the supplied one by plain string comparison, and in every case
(success, failure, or driver error) leaves the database unchanged. -/
theorem login_spec (user : UserLogin) (db : DB) (findErr : Option String) :
    ((∀ u ∈ db.users, u.email ≠ user.email) →
      login user db none =
        (.error ⟨404, "User not found. Please check your email or sign up."⟩, db)) ∧
    (∀ u, db.users.find? (fun v => v.email == user.email) = some u →
      u.password ≠ user.password →
      login user db none =
        (.error ⟨401, "Incorrect password. Please try again."⟩, db)) ∧
    (login user db findErr).2 = db := by
  refine ⟨fun h => ?_, fun u hu hp => ?_, ?_⟩
  · have hnone : db.users.find? (fun v => v.email == user.email) = none :=
      List.find?_eq_none.mpr (fun x hx => by simp [h x hx])
    simp [login, hnone]
  · simp [login, hu, hp]
  · unfold login
    cases findErr with
    | some e => rfl
    | none =>
      cases hf : db.users.find? (fun v => v.email == user.email) with
      | none => rfl
      | some u =>
        by_cases hp : u.password = user.password <;> simp [hp]

/-- Concrete instantiations of `login_spec`: unknown email gives 404,
wrong password gives 401. -/
theorem login_spec_witness :
    login { email := "zz@x.com", password := "p" } exDB none =
      (.error ⟨404, "User not found. Please check your email or sign up."⟩, exDB) ∧
    login { email := "a@x.com", password := "wrong" } exDB none =
      (.error ⟨401, "Incorrect password. Please try again."⟩, exDB) :=
  ⟨(login_spec { email := "zz@x.com", password := "p" } exDB none).1 (by decide),
   (login_spec { email := "a@x.com", password := "wrong" } exDB none).2.1 exUser (by decide) (by decide)⟩

/-! ## Claim C3 -/

/-- C3: a login whose email matches a user document with equal stored
password returns exactly the fields id (string form of the stored id),
name, email, role and dob inside `user`, and the response body contains
no `password` field at any depth. -/
theorem login_success (user : UserLogin) (db : DB) (u : UserDoc)
    (hfind : db.users.find? (fun v => v.email == user.email) = some u)
    (hpw : u.password = user.password) :
    login user db none =
      (.ok (JVal.obj
        [("message", .str "Login successful!"),
         ("user", JVal.obj
           [("id", .str u._id), ("name", .str u.name),
            ("email", .str u.email), ("role", .str u.role),
            ("dob", .str u.dob)])]), db) ∧
    JVal.hasKey "password"
      (JVal.obj
        [("message", .str "Login successful!"),
         ("user", JVal.obj
           [("id", .str u._id), ("name", .str u.name),
            ("email", .str u.email), ("role", .str u.role),
            ("dob", .str u.dob)])]) = false := by
  constructor
  · simp [login, hfind, hpw]
  · rfl

/-- Concrete instantiation of `login_success` against `exDB`. -/
theorem login_success_witness :
    login { email := "a@x.com", password := "p" } exDB none =
      (.ok (JVal.obj
        [("message", .str "Login successful!"),
         ("user", JVal.obj
           [("id", .str "507f1f77bcf86cd799439011"), ("name", .str "A"),
            ("email", .str "a@x.com"), ("role", .str "family"),
            ("dob", .str "2000-01-01")])]), exDB) ∧
    JVal.hasKey "password"
      (JVal.obj
        [("message", .str "Login successful!"),
         ("user", JVal.obj
           [("id", .str "507f1f77bcf86cd799439011"), ("name", .str "A"),
            ("email", .str "a@x.com"), ("role", .str "family"),
            ("dob", .str "2000-01-01")])]) = false :=
  login_success { email := "a@x.com", password := "p" } exDB exUser (by decide) rfl

/-! ## Claim C4 -/

/-- C4: a service-request creation stores status `"pending"` whenever the
caller omits the status field, stores `updatedAt` equal to the server
clock `now` regardless of the request's content, and on an acknowledged
insert responds with success plus the generated request id. -/
theorem create_service_request_spec (db : DB) (now freshId : String) :
    (∀ (userId userName userEmail serviceType requirements : String)
        (cost : ℚ) (createdAt : String),
      (ServiceRequest.ofPayload userId userName userEmail serviceType
          requirements cost none createdAt).status = "pending") ∧
    (∀ request : ServiceRequest, ∃ doc : ReqDoc,
      create_service_request request db now freshId true none =
        (.ok (JVal.obj
          [("message", .str "Service request created successfully!"),
           ("requestId", .str freshId)]),
         { db with service_requests := db.service_requests ++ [doc] }) ∧
      doc.status = request.status ∧ doc.updatedAt = now ∧
      doc._id = freshId ∧ doc.createdAt = request.createdAt) :=
  ⟨fun _ _ _ _ _ _ _ => rfl,
   fun request => ⟨_, rfl, rfl, rfl, rfl, rfl⟩⟩

/-! ## Claim C5 -/

/-- C5: listing pending requests returns exactly the documents whose
status is `"pending"`, sorted by `createdAt` descending, each serialized
with a plain string `id` field and with the internal `_id` representation
removed. -/
theorem get_pending_requests_spec (db : DB) :
    get_pending_requests db none =
      (.ok (JVal.obj [("requests", .arr ((pendingSorted db).map reqToJson))]), db) ∧
    (∀ r : ReqDoc, r ∈ pendingSorted db ↔
      (r ∈ db.service_requests ∧ r.status = "pending")) ∧
    (pendingSorted db).Pairwise (fun a b => b.createdAt ≤ a.createdAt) ∧
    (∀ r : ReqDoc,
      (reqToJson r).topField "id" = some (.str r._id) ∧
      "_id" ∉ (reqToJson r).topKeys ∧
      "id" ∈ (reqToJson r).topKeys) := by
  refine ⟨rfl, ?_, ?_, ?_⟩
  · intro r
    simp [pendingSorted, List.mem_filter]
  · have h := @List.sorted_mergeSort ReqDoc
      (fun a b : ReqDoc => decide (b.createdAt ≤ a.createdAt))
      (fun a b c hab hbc => by
        simp only [decide_eq_true_eq] at *
        exact le_trans hbc hab)
      (fun a b => by
        simp only [Bool.or_eq_true, decide_eq_true_eq]
        exact le_total b.createdAt a.createdAt)
      (db.service_requests.filter (fun r => r.status == "pending"))
    exact h.imp (fun hab => of_decide_eq_true hab)
  · intro r
    obtain ⟨i, uid, un, ue, st, rq, co, s, ca, ua, cg1, cg2, cg3, pa⟩ := r
    cases cg1 <;> cases cg2 <;> cases cg3 <;> cases pa <;>
      simp [reqToJson, optField, JVal.topField, JVal.topKeys, List.lookup]

/-! ## Helper lemmas about `updateFirst` -/

/-- `updateFirst` at a list containing a match: the list splits as an
unmatched prefix, the first match, and an untouched suffix. -/
theorem updateFirst_decomp {α : Type} (p : α → Bool) (f : α → α)
    (l : List α) (h : l.any p = true) :
    ∃ pre x post, l = pre ++ x :: post ∧ (∀ y ∈ pre, p y = false) ∧
      p x = true ∧ updateFirst p f l = pre ++ f x :: post := by
  induction l with
  | nil => simp at h
  | cons x xs ih =>
    by_cases hx : p x = true
    · exact ⟨[], x, xs, rfl, by simp, hx, by simp [updateFirst, hx]⟩
    · have hx' : p x = false := by simpa using hx
      have hxs : xs.any p = true := by simpa [hx'] using h
      obtain ⟨pre, y, post, heq, hpre, hy, hupd⟩ := ih hxs
      refine ⟨x :: pre, y, post, by simp [heq], ?_, hy,
        by simp [updateFirst, hx', hupd]⟩
      intro z hz
      rcases List.mem_cons.mp hz with rfl | hz
      · exact hx'
      · exact hpre z hz

/-- `find?` after `updateFirst`, when the update preserves the predicate:
the first match is the image of the old first match. -/
theorem find?_updateFirst {α : Type} (p : α → Bool) (f : α → α)
    (hpf : ∀ x, p (f x) = p x) (l : List α) :
    (updateFirst p f l).find? p = (l.find? p).map f := by
  induction l with
  | nil => rfl
  | cons x xs ih =>
    by_cases hx : p x = true
    · have hfx : p (f x) = true := (hpf x).trans hx
      simp [updateFirst, hx, List.find?_cons_of_pos, hfx]
    · have hx' : p x = false := by simpa using hx
      have hfx : ¬ p (f x) = true := by simp [hpf, hx']
      simp only [updateFirst, hx', if_neg, Bool.false_eq_true,
        not_false_eq_true, List.find?_cons_of_neg, hx, ih]

/-- Every element of `updateFirst p f l` is an element of `l` or the image
under `f` of an element of `l`. -/
theorem mem_updateFirst {α : Type} {p : α → Bool} {f : α → α}
    {l : List α} {y : α} (hy : y ∈ updateFirst p f l) :
    y ∈ l ∨ ∃ x ∈ l, y = f x := by
  induction l with
  | nil => simp [updateFirst] at hy
  | cons x xs ih =>
    by_cases hx : p x = true
    · simp only [updateFirst, hx, if_pos, List.mem_cons] at hy
      rcases hy with rfl | hy
      · exact Or.inr ⟨x, List.mem_cons_self _ _, rfl⟩
      · exact Or.inl (List.mem_cons_of_mem _ hy)
    · have hx' : p x = false := by simpa using hx
      simp only [updateFirst, hx', Bool.false_eq_true, if_neg,
        not_false_eq_true, List.mem_cons] at hy
      rcases hy with rfl | hy
      · exact Or.inl (List.mem_cons_self _ _)
      · rcases ih hy with h | ⟨z, hz, rfl⟩
        · exact Or.inl (List.mem_cons_of_mem _ h)
        · exact Or.inr ⟨z, List.mem_cons_of_mem _ hz, rfl⟩

/-! ## Claim C6 -/

/-- C6: the action handler rejects an action outside approve/reject with
400 and no mutation; with a valid action it rejects a structurally
ill-formed id with 400; with well-formed inputs it answers 404 when no
document matches, and otherwise sets the matched document's status to
approved (for approve) or rejected (for reject) and returns success. -/
theorem handle_request_action_spec (request_id action : String)
    (c : RequestAction) (db : DB) (now : String) (updateErr : Option String) :
    (¬(action = "approve" ∨ action = "reject") →
      handle_request_action request_id action c db now updateErr =
        (.error ⟨400, "Invalid action. Use 'approve' or 'reject'"⟩, db)) ∧
    ((action = "approve" ∨ action = "reject") →
      isValidObjectId request_id = false →
      handle_request_action request_id action c db now updateErr =
        (.error ⟨400, "Invalid request ID format"⟩, db)) ∧
    ((action = "approve" ∨ action = "reject") →
      isValidObjectId request_id = true →
      (∀ r ∈ db.service_requests, r._id ≠ request_id) →
      handle_request_action request_id action c db now none =
        (.error ⟨404, "Service request not found"⟩, db)) ∧
    (∀ d : ReqDoc, (action = "approve" ∨ action = "reject") →
      isValidObjectId request_id = true →
      db.service_requests.find? (fun r => r._id == request_id) = some d →
      (handle_request_action request_id action c db now none).1 =
        .ok (JVal.obj [("message", .str ("Request " ++
          (if action == "approve" then "approved" else "rejected") ++
          " successfully!"))]) ∧
      (handle_request_action request_id action c db now none).2.service_requests.find?
          (fun r => r._id == request_id) =
        some (applyAction
          (if action == "approve" then "approved" else "rejected")
          c now d)) := by
  refine ⟨fun h => ?_, fun ha hid => ?_, fun ha hid hno => ?_,
    fun d ha hid hd => ?_⟩
  · have h1 : action ≠ "approve" := fun hc => h (Or.inl hc)
    have h2 : action ≠ "reject" := fun hc => h (Or.inr hc)
    simp [handle_request_action, h1, h2]
  · rcases ha with rfl | rfl <;> simp [handle_request_action, hid]
  · have hany : db.service_requests.any (fun r => r._id == request_id) = false := by
      simp only [List.any_eq_false]
      intro r hr
      simp [hno r hr]
    rcases ha with rfl | rfl <;> simp [handle_request_action, hid, hany]
  · have hmem := List.mem_of_find?_eq_some hd
    have hpd := List.find?_some hd
    have hany : db.service_requests.any (fun r => r._id == request_id) = true :=
      List.any_eq_true.mpr ⟨d, hmem, hpd⟩
    rcases ha with rfl | rfl
    · have hff := find?_updateFirst (fun r => r._id == request_id)
        (applyAction "approved" c now) (fun _ => rfl) db.service_requests
      constructor
      · simp [handle_request_action, hid, hany]
      · simp [handle_request_action, hid, hany, hff, hd]
    · have hff := find?_updateFirst (fun r => r._id == request_id)
        (applyAction "rejected" c now) (fun _ => rfl) db.service_requests
      constructor
      · simp [handle_request_action, hid, hany]
      · simp [handle_request_action, hid, hany, hff, hd]

/-- Concrete instantiations of `handle_request_action_spec`: bad action,
bad id, well-formed missing id, and a successful approval. -/
theorem handle_request_action_spec_witness :
    handle_request_action "507f1f77bcf86cd799439022" "cancel" exCg exDB "t" none =
      (.error ⟨400, "Invalid action. Use 'approve' or 'reject'"⟩, exDB) ∧
    handle_request_action "not-an-id" "approve" exCg exDB "t" none =
      (.error ⟨400, "Invalid request ID format"⟩, exDB) ∧
    handle_request_action "ffffffffffffffffffffffff" "approve" exCg exDB "t" none =
      (.error ⟨404, "Service request not found"⟩, exDB) ∧
    (handle_request_action "507f1f77bcf86cd799439022" "approve" exCg exDB "t" none).1 =
      .ok (JVal.obj [("message", .str "Request approved successfully!")]) :=
  ⟨(handle_request_action_spec "507f1f77bcf86cd799439022" "cancel" exCg exDB "t" none).1
      (by decide),
   (handle_request_action_spec "not-an-id" "approve" exCg exDB "t" none).2.1
      (Or.inl rfl) (by decide),
   (handle_request_action_spec "ffffffffffffffffffffffff" "approve" exCg exDB "t" none).2.2.1
      (Or.inl rfl) (by decide) (by decide),
   ((handle_request_action_spec "507f1f77bcf86cd799439022" "approve" exCg exDB "t" none).2.2.2
      exReq (Or.inl rfl) (by decide) (by decide)).1⟩

/-- The success equation of the action handler: with a valid action, a
well-formed id and a matching document, it returns the success message and
updates the first matching document. -/
theorem handle_action_success (rid action : String) (c : RequestAction)
    (db : DB) (now : String)
    (ha : action = "approve" ∨ action = "reject")
    (hid : isValidObjectId rid = true)
    (hany : db.service_requests.any (fun r => r._id == rid) = true) :
    handle_request_action rid action c db now none =
      (.ok (JVal.obj [("message", .str ("Request " ++
        (if action == "approve" then "approved" else "rejected") ++
        " successfully!"))]),
       { db with
         service_requests :=
          updateFirst (fun r => r._id == rid)
            (applyAction (if action == "approve" then "approved" else "rejected")
              c now)
            db.service_requests }) := by
  rcases ha with rfl | rfl <;> simp [handle_request_action, hid, hany]

/-! ## Claim C7 -/

/-- C7: on an existing request, approve with caregiver A and then reject
with caregiver B both succeed, and the resulting document has status
rejected with B's id/name/email — the second processing unconditionally
overwrites the first. -/
theorem double_processing (rid : String) (A B : RequestAction) (db : DB)
    (now1 now2 : String) (d : ReqDoc)
    (hid : isValidObjectId rid = true)
    (hfind : db.service_requests.find? (fun r => r._id == rid) = some d) :
    (handle_request_action rid "approve" A db now1 none).1 =
      .ok (JVal.obj [("message", .str "Request approved successfully!")]) ∧
    (handle_request_action rid "reject" B
        (handle_request_action rid "approve" A db now1 none).2 now2 none).1 =
      .ok (JVal.obj [("message", .str "Request rejected successfully!")]) ∧
    (handle_request_action rid "reject" B
        (handle_request_action rid "approve" A db now1 none).2 now2
        none).2.service_requests.find? (fun r => r._id == rid) =
      some (applyAction "rejected" B now2 (applyAction "approved" A now1 d)) ∧
    (applyAction "rejected" B now2 (applyAction "approved" A now1 d)).status =
      "rejected" ∧
    (applyAction "rejected" B now2 (applyAction "approved" A now1 d)).caregiverId =
      some B.caregiverId ∧
    (applyAction "rejected" B now2 (applyAction "approved" A now1 d)).caregiverName =
      some B.caregiverName ∧
    (applyAction "rejected" B now2 (applyAction "approved" A now1 d)).caregiverEmail =
      some B.caregiverEmail := by
  have hmem := List.mem_of_find?_eq_some hfind
  have hpd := List.find?_some hfind
  have hany1 : db.service_requests.any (fun r => r._id == rid) = true :=
    List.any_eq_true.mpr ⟨d, hmem, hpd⟩
  have hff1 := find?_updateFirst (fun r => r._id == rid)
    (applyAction "approved" A now1) (fun _ => rfl) db.service_requests
  have hok1 := handle_action_success rid "approve" A db now1 (Or.inl rfl)
    hid hany1
  have hstep1 : (handle_request_action rid "approve" A db now1 none).2.service_requests =
      updateFirst (fun r => r._id == rid) (applyAction "approved" A now1)
        db.service_requests := by
    rw [hok1]; rfl
  have hfind1 : (handle_request_action rid "approve" A db now1
      none).2.service_requests.find? (fun r => r._id == rid) =
      some (applyAction "approved" A now1 d) := by
    rw [hstep1, hff1, hfind]; rfl
  have hmem1 := List.mem_of_find?_eq_some hfind1
  have hpd1 := List.find?_some hfind1
  have hany2 : (handle_request_action rid "approve" A db now1
      none).2.service_requests.any (fun r => r._id == rid) = true :=
    List.any_eq_true.mpr ⟨_, hmem1, hpd1⟩
  have hff2 := find?_updateFirst (fun r => r._id == rid)
    (applyAction "rejected" B now2) (fun _ => rfl)
    (handle_request_action rid "approve" A db now1 none).2.service_requests
  have hok2 := handle_action_success rid "reject" B
    (handle_request_action rid "approve" A db now1 none).2 now2 (Or.inr rfl)
    hid hany2
  have hstep2 : (handle_request_action rid "reject" B
      (handle_request_action rid "approve" A db now1 none).2 now2
      none).2.service_requests =
      updateFirst (fun r => r._id == rid) (applyAction "rejected" B now2)
        (handle_request_action rid "approve" A db now1 none).2.service_requests := by
    rw [hok2]; rfl
  refine ⟨by rw [hok1]; rfl, by rw [hok2]; rfl, ?_, rfl, rfl, rfl, rfl⟩
  rw [hstep2, hff2, hfind1]; rfl

/-- Concrete instantiation of `double_processing`: approve then reject on
the sample pending request. -/
theorem double_processing_witness :
    (handle_request_action "507f1f77bcf86cd799439022" "approve" exCg exDB "t1" none).1 =
      .ok (JVal.obj [("message", .str "Request approved successfully!")]) ∧
    (handle_request_action "507f1f77bcf86cd799439022" "reject" exCg2
        (handle_request_action "507f1f77bcf86cd799439022" "approve" exCg exDB "t1" none).2
        "t2" none).1 =
      .ok (JVal.obj [("message", .str "Request rejected successfully!")]) ∧
    (handle_request_action "507f1f77bcf86cd799439022" "reject" exCg2
        (handle_request_action "507f1f77bcf86cd799439022" "approve" exCg exDB "t1" none).2
        "t2" none).2.service_requests.find?
        (fun r => r._id == "507f1f77bcf86cd799439022") =
      some (applyAction "rejected" exCg2 "t2" (applyAction "approved" exCg "t1" exReq)) ∧
    (applyAction "rejected" exCg2 "t2" (applyAction "approved" exCg "t1" exReq)).status =
      "rejected" ∧
    (applyAction "rejected" exCg2 "t2" (applyAction "approved" exCg "t1" exReq)).caregiverId =
      some exCg2.caregiverId ∧
    (applyAction "rejected" exCg2 "t2" (applyAction "approved" exCg "t1" exReq)).caregiverName =
      some exCg2.caregiverName ∧
    (applyAction "rejected" exCg2 "t2" (applyAction "approved" exCg "t1" exReq)).caregiverEmail =
      some exCg2.caregiverEmail :=
  double_processing "507f1f77bcf86cd799439022" exCg exCg2 exDB "t1" "t2" exReq
    (by decide) (by decide)

/-! ## Claim C10 -/

/-- C10: a successful approve/reject leaves the users collection and every
other service-request document untouched, and changes the matched
document only in status, the three caregiver fields, processedAt and
updatedAt — id, user fields, serviceType, requirements, cost and
createdAt are preserved. -/
theorem action_frame (rid action : String) (c : RequestAction) (db : DB)
    (now : String)
    (hact : action = "approve" ∨ action = "reject")
    (hid : isValidObjectId rid = true)
    (hmatch : db.service_requests.any (fun r => r._id == rid) = true) :
    (handle_request_action rid action c db now none).2.users = db.users ∧
    ∃ pre d post,
      db.service_requests = pre ++ d :: post ∧
      (∀ y ∈ pre, (y._id == rid) = false) ∧
      (d._id == rid) = true ∧
      (handle_request_action rid action c db now none).2.service_requests =
        pre ++ applyAction (if action == "approve" then "approved" else "rejected")
          c now d :: post ∧
      (∀ r : ReqDoc,
        (applyAction (if action == "approve" then "approved" else "rejected")
            c now r)._id = r._id ∧
        (applyAction (if action == "approve" then "approved" else "rejected")
            c now r).userId = r.userId ∧
        (applyAction (if action == "approve" then "approved" else "rejected")
            c now r).userName = r.userName ∧
        (applyAction (if action == "approve" then "approved" else "rejected")
            c now r).userEmail = r.userEmail ∧
        (applyAction (if action == "approve" then "approved" else "rejected")
            c now r).serviceType = r.serviceType ∧
        (applyAction (if action == "approve" then "approved" else "rejected")
            c now r).requirements = r.requirements ∧
        (applyAction (if action == "approve" then "approved" else "rejected")
            c now r).cost = r.cost ∧
        (applyAction (if action == "approve" then "approved" else "rejected")
            c now r).createdAt = r.createdAt) := by
  rcases hact with rfl | rfl
  · obtain ⟨pre, d, post, heq, hpre, hd, hupd⟩ :=
      updateFirst_decomp (fun r => r._id == rid) (applyAction "approved" c now)
        db.service_requests hmatch
    refine ⟨by simp [handle_request_action, hid, hmatch], pre, d, post, heq,
      hpre, hd, ?_, fun r => ⟨rfl, rfl, rfl, rfl, rfl, rfl, rfl, rfl⟩⟩
    simp [handle_request_action, hid, hmatch, hupd]
  · obtain ⟨pre, d, post, heq, hpre, hd, hupd⟩ :=
      updateFirst_decomp (fun r => r._id == rid) (applyAction "rejected" c now)
        db.service_requests hmatch
    refine ⟨by simp [handle_request_action, hid, hmatch], pre, d, post, heq,
      hpre, hd, ?_, fun r => ⟨rfl, rfl, rfl, rfl, rfl, rfl, rfl, rfl⟩⟩
    simp [handle_request_action, hid, hmatch, hupd]

/-- Concrete instantiation of `action_frame`: approving the sample request
leaves the users collection unchanged. -/
theorem action_frame_witness :
    (handle_request_action "507f1f77bcf86cd799439022" "approve" exCg exDB "t"
      none).2.users = exDB.users :=
  (action_frame "507f1f77bcf86cd799439022" "approve" exCg exDB "t"
    (Or.inl rfl) (by decide) (by decide)).1

/-! ## Claim C8 -/

/-- C8 as stated is false: service-request creation stores the
caller-supplied status verbatim, with no validation against
pending/approved/rejected.  Creating a request with status `"urgent"`
stores a document whose status is `"urgent"`. -/
theorem create_stores_arbitrary_status :
    ((create_service_request
        ⟨"u", "n", "e@x.com", "cleaning", "r", 5, "urgent", "2024-01-01"⟩
        ⟨[], []⟩ "now" "ffffffffffffffffffffffff" true
        none).2.service_requests.map (fun r => r.status) = ["urgent"]) ∧
    statusOk "urgent" = false := by
  constructor <;> rfl

/-- C8 amended: every operation preserves the invariant that all stored
service-request statuses lie in pending/approved/rejected, provided each
creation is called with a status in that set (in particular when the
caller omits the field and pydantic defaults it to pending); creation
itself performs no validation, so the unconditional claim fails. -/
theorem status_invariant_preserved (db : DB)
    (hdb : ∀ r ∈ db.service_requests, statusOk r.status = true) :
    (∀ (user : UserSignup) (freshId : String) (ack : Bool)
        (fe ie : Option String),
      ∀ r ∈ (signup user db freshId ack fe ie).2.service_requests,
        statusOk r.status = true) ∧
    (∀ (user : UserLogin) (fe : Option String),
      ∀ r ∈ (login user db fe).2.service_requests, statusOk r.status = true) ∧
    (∀ fe : Option String,
      ∀ r ∈ (get_pending_requests db fe).2.service_requests,
        statusOk r.status = true) ∧
    (∀ (request : ServiceRequest) (now freshId : String) (ack : Bool)
        (ie : Option String), statusOk request.status = true →
      ∀ r ∈ (create_service_request request db now freshId ack
          ie).2.service_requests, statusOk r.status = true) ∧
    (∀ (rid action : String) (c : RequestAction) (now : String)
        (ue : Option String),
      ∀ r ∈ (handle_request_action rid action c db now ue).2.service_requests,
        statusOk r.status = true) := by
  refine ⟨?_, ?_, ?_, ?_, ?_⟩
  · intro user freshId ack fe ie r hr
    unfold signup at hr
    repeat first | exact hdb r hr | split at hr
  · intro user fe r hr
    unfold login at hr
    repeat first | exact hdb r hr | split at hr
  · intro fe r hr
    unfold get_pending_requests at hr
    repeat first | exact hdb r hr | split at hr
  · intro request now freshId ack ie hstat r hr
    unfold create_service_request at hr
    split at hr
    · exact hdb r hr
    · split at hr <;>
      · rcases List.mem_append.mp hr with h | h
        · exact hdb r h
        · have h' := List.mem_singleton.mp h
          subst h'
          exact hstat
  · intro rid action c now ue r hr
    unfold handle_request_action at hr
    repeat
      first
        | exact hdb r hr
        | (rcases mem_updateFirst hr with h | ⟨x, hx, rfl⟩ <;>
            first
              | exact hdb r h
              | rfl)
        | split at hr

/-- Concrete instantiation of `status_invariant_preserved`: the document
produced by approving the sample request keeps a valid status. -/
theorem status_invariant_preserved_witness :
    statusOk (applyAction "approved" exCg "t" exReq).status = true :=
  (status_invariant_preserved exDB (by decide)).2.2.2.2
    "507f1f77bcf86cd799439022" "approve" exCg "t" none
    (applyAction "approved" exCg "t" exReq) (by decide)

/-! ## Claim C9 -/

/-- C9 as stated is false: service-request creation is not the sole
handler echoing the raw failure string — the action handler's `except`
clause also interpolates `str(e)` into its 500 detail, so the detail
varies with the internal exception text instead of being generic. -/
theorem action_handler_echoes_exception :
    (handle_request_action "507f1f77bcf86cd799439022" "approve" exCg exDB "t"
        (some "boom")).1 =
      .error ⟨500, "Failed to process service request: boom"⟩ ∧
    (handle_request_action "507f1f77bcf86cd799439022" "approve" exCg exDB "t"
        (some "zap")).1 =
      .error ⟨500, "Failed to process service request: zap"⟩ := by
  constructor <;> rfl

/-- C9 amended: on an unexpected data-access failure, signup, login and
pending-listing answer with a fixed generic 500 detail, while both
service-request creation and request-action processing echo the raw
failure string into the detail. -/
theorem error_detail_policy (e : String) :
    (∀ (user : UserSignup) (db : DB) (freshId : String) (ack : Bool)
        (ie : Option String),
      (signup user db freshId ack (some e) ie).1 =
        .error ⟨500, "Signup failed due to server error"⟩) ∧
    (∀ (user : UserSignup) (db : DB) (freshId : String) (ack : Bool),
      db.users.find? (fun u => u.email == user.email) = none →
      (signup user db freshId ack none (some e)).1 =
        .error ⟨500, "Signup failed due to server error"⟩) ∧
    (∀ (user : UserLogin) (db : DB),
      (login user db (some e)).1 =
        .error ⟨500, "Login failed due to server error"⟩) ∧
    (∀ db : DB,
      (get_pending_requests db (some e)).1 =
        .error ⟨500, "Failed to fetch service requests"⟩) ∧
    (∀ (request : ServiceRequest) (db : DB) (now freshId : String)
        (ack : Bool),
      (create_service_request request db now freshId ack (some e)).1 =
        .error ⟨500, "Failed to create service request: " ++ e⟩) ∧
    (∀ (rid action : String) (c : RequestAction) (db : DB) (now : String),
      (action = "approve" ∨ action = "reject") →
      isValidObjectId rid = true →
      (handle_request_action rid action c db now (some e)).1 =
        .error ⟨500, "Failed to process service request: " ++ e⟩) := by
  refine ⟨fun _ _ _ _ _ => rfl, fun user db freshId ack hf => ?_,
    fun _ _ => rfl, fun _ => rfl, fun _ _ _ _ _ => rfl,
    fun rid action c db now ha hid => ?_⟩
  · simp [signup, hf]
  · rcases ha with rfl | rfl <;> simp [handle_request_action, hid]

/-- Concrete instantiations of `error_detail_policy`: a failed insert in
signup yields the generic detail, a failed update in the action handler
echoes the raw string. -/
theorem error_detail_policy_witness :
    (signup { name := "B", email := "b@x.com", password := "q", dob := "1999-01-01", role := "family" }
        exDB "aaaaaaaaaaaaaaaaaaaaaaaa" true none (some "disk full")).1 =
      .error ⟨500, "Signup failed due to server error"⟩ ∧
    (handle_request_action "507f1f77bcf86cd799439022" "reject" exCg exDB "t"
        (some "disk full")).1 =
      .error ⟨500, "Failed to process service request: disk full"⟩ :=
  ⟨(error_detail_policy "disk full").2.1
      { name := "B", email := "b@x.com", password := "q", dob := "1999-01-01", role := "family" }
      exDB "aaaaaaaaaaaaaaaaaaaaaaaa" true (by decide),
   (error_detail_policy "disk full").2.2.2.2.2
      "507f1f77bcf86cd799439022" "reject" exCg exDB "t" (Or.inr rfl) (by decide)⟩

/-- Concrete instantiation of `create_service_request_spec`: an omitted
status field defaults to pending. -/
theorem create_service_request_spec_witness :
    (ServiceRequest.ofPayload "u" "n" "e@x.com" "cleaning" "r" 5 none
      "2024-01-01").status = "pending" :=
  (create_service_request_spec exDB "T" "bbbbbbbbbbbbbbbbbbbbbbbb").1
    "u" "n" "e@x.com" "cleaning" "r" 5 "2024-01-01"

/-- Concrete instantiation of `get_pending_requests_spec` on the sample
database. -/
theorem get_pending_requests_spec_witness :
    get_pending_requests exDB none =
      (.ok (JVal.obj
        [("requests", .arr ((pendingSorted exDB).map reqToJson))]), exDB) :=
  (get_pending_requests_spec exDB).1
